import Mathlib

/-!
Shallow embedding of src/klippy/extras/gcode_move.py (class GCodeMove).

Numbers are modelled as rationals. The mutable object state is a record
threaded explicitly through each command handler. Python exceptions raised
by a handler are modelled either as an Except result (for handlers that
raise before any mutation) or, for cmd_G1 whose in-place mutations can
precede the raise, as a result record carrying both the (possibly partially
mutated) state and the raised error.
-/

namespace GCodeMove

/-- A 4-component position vector, indices 0..3 = X, Y, Z, E. -/
structure Pos4 where
  x : ℚ
  y : ℚ
  z : ℚ
  e : ℚ
  deriving DecidableEq, Repr

/-- Snapshot stored by cmd_SAVE_GCODE_STATE (the dict literal at
lines 255-263 of the source). -/
structure SavedState where
  absolute_coord : Bool
  absolute_extrude : Bool
  base_position : Pos4
  last_position : Pos4
  homing_position : Pos4
  speed : ℚ
  speed_factor : ℚ
  extrude_factor : ℚ
  deriving DecidableEq, Repr

/-- The coordinate-manipulation state of the GCodeMove object
(the fields assigned in __init__, lines 45-53). -/
structure GCodeState where
  absolute_coord : Bool
  absolute_extrude : Bool
  base_position : Pos4
  last_position : Pos4
  homing_position : Pos4
  speed : ℚ
  speed_factor : ℚ
  extrude_factor : ℚ
  saved_states : List (String × SavedState)
  deriving DecidableEq, Repr

/-- Initial state built in __init__ (lines 45-53): both modes absolute,
all positions zero, speed 25, speed_factor 1/60, extrude_factor 1,
empty saved-state dict. -/
def initState : GCodeState :=
  { absolute_coord := true
    absolute_extrude := true
    base_position := ⟨0, 0, 0, 0⟩
    last_position := ⟨0, 0, 0, 0⟩
    homing_position := ⟨0, 0, 0, 0⟩
    speed := 25
    speed_factor := 1 / 60
    extrude_factor := 1
    saved_states := [] }

/-- Errors raised by the handlers (all are gcmd.error / CommandError in the
source; the constructors record which raise site fired and the text the
message interpolates). -/
inductive CmdError where
  /-- raise at line 184: Unable to parse move, with the command line. -/
  | parseError (cmdline : String)
  /-- raise at line 180: Invalid speed, with the command line. -/
  | invalidSpeed (cmdline : String)
  /-- raise inside gcmd.get_float with a minimum bound (above=0.), naming
  the offending parameter. -/
  | invalidParam (param : String)
  /-- raise at line 269: Unknown g-code state, with the state name. -/
  | unknownState (name : String)
  deriving DecidableEq, Repr

/-- A raw command parameter value as seen by cmd_G1: the string either
parses as a float or does not (float(...) raises ValueError). -/
inductive ParamVal where
  | num (v : ℚ)
  | malformed
  deriving DecidableEq, Repr

/-- The sparse parameter set of a G1 command (params dict restricted to
the keys lines 159-186 read). -/
structure G1Params where
  X : Option ParamVal
  Y : Option ParamVal
  Z : Option ParamVal
  E : Option ParamVal
  F : Option ParamVal
  deriving DecidableEq, Repr

/-- Result of a cmd_G1 call: the object state after the call (Python
mutates self in place, so mutations made before a raise persist), the
error raised if any, and the move_with_transform invocation if reached. -/
structure G1Result where
  state : GCodeState
  err : Option CmdError
  moved : Option (Pos4 × ℚ)
  deriving DecidableEq, Repr

/-- Short-circuit sequencing of the per-parameter steps of cmd_G1: once an
error has been raised, later statements of the try block do not run, but
the state mutated so far is kept. -/
def stepParam (r : GCodeState × Option CmdError)
    (f : GCodeState → GCodeState × Option CmdError) :
    GCodeState × Option CmdError :=
  match r with
  | (s, some e) => (s, some e)
  | (s, none) => f s

/-- One iteration of the for-loop at lines 160-168 for axis X (pos 0). -/
def g1X (cmdline : String) (p : Option ParamVal) (s : GCodeState) :
    GCodeState × Option CmdError :=
  match p with
  | none => (s, none)
  | some .malformed => (s, some (.parseError cmdline))
  | some (.num v) =>
      ({ s with last_position :=
          { s.last_position with x :=
              if s.absolute_coord then v + s.base_position.x
              else s.last_position.x + v } }, none)

/-- One iteration of the for-loop at lines 160-168 for axis Y (pos 1). -/
def g1Y (cmdline : String) (p : Option ParamVal) (s : GCodeState) :
    GCodeState × Option CmdError :=
  match p with
  | none => (s, none)
  | some .malformed => (s, some (.parseError cmdline))
  | some (.num v) =>
      ({ s with last_position :=
          { s.last_position with y :=
              if s.absolute_coord then v + s.base_position.y
              else s.last_position.y + v } }, none)

/-- One iteration of the for-loop at lines 160-168 for axis Z (pos 2). -/
def g1Z (cmdline : String) (p : Option ParamVal) (s : GCodeState) :
    GCodeState × Option CmdError :=
  match p with
  | none => (s, none)
  | some .malformed => (s, some (.parseError cmdline))
  | some (.num v) =>
      ({ s with last_position :=
          { s.last_position with z :=
              if s.absolute_coord then v + s.base_position.z
              else s.last_position.z + v } }, none)

/-- The E-parameter block of cmd_G1, lines 169-176. -/
def g1E (cmdline : String) (p : Option ParamVal) (s : GCodeState) :
    GCodeState × Option CmdError :=
  match p with
  | none => (s, none)
  | some .malformed => (s, some (.parseError cmdline))
  | some (.num v0) =>
      let v := v0 * s.extrude_factor
      ({ s with last_position :=
          { s.last_position with e :=
              if !s.absolute_coord || !s.absolute_extrude then
                s.last_position.e + v
              else v + s.base_position.e } }, none)

/-- The F-parameter block of cmd_G1, lines 177-182. -/
def g1F (cmdline : String) (p : Option ParamVal) (s : GCodeState) :
    GCodeState × Option CmdError :=
  match p with
  | none => (s, none)
  | some .malformed => (s, some (.parseError cmdline))
  | some (.num gcode_speed) =>
      if gcode_speed ≤ 0 then (s, some (.invalidSpeed cmdline))
      else ({ s with speed := gcode_speed * s.speed_factor }, none)

/-- cmd_G1, lines 159-186 (the out-of-scope persistence block at lines
135-158 only writes files and is omitted). Parameters are processed in
source order X, Y, Z, E, F; on success move_with_transform is invoked
with the updated last_position and speed. -/
def cmd_G1 (cmdline : String) (p : G1Params) (s : GCodeState) : G1Result :=
  let r := stepParam (stepParam (stepParam (stepParam
      (g1X cmdline p.X s) (g1Y cmdline p.Y)) (g1Z cmdline p.Z))
      (g1E cmdline p.E)) (g1F cmdline p.F)
  match r with
  | (s1, some err) => ⟨s1, some err, none⟩
  | (s1, none) => ⟨s1, none, some (s1.last_position, s1.speed)⟩

/-- _get_gcode_position, lines 98-101: last_position minus base_position,
with the E component divided by extrude_factor. -/
def get_gcode_position (s : GCodeState) : Pos4 :=
  { x := s.last_position.x - s.base_position.x
    y := s.last_position.y - s.base_position.y
    z := s.last_position.z - s.base_position.z
    e := (s.last_position.e - s.base_position.e) / s.extrude_factor }

/-- _get_gcode_speed, lines 102-103. -/
def get_gcode_speed (s : GCodeState) : ℚ :=
  s.speed / s.speed_factor

/-- cmd_G92, lines 206-215: offsets obtained with gcmd.get_float(a, None)
for X, Y, Z, E; each present offset sets base_position[i] =
last_position[i] - offset (the E offset first scaled by extrude_factor);
if every offset is None, base_position is replaced wholesale by
last_position. -/
def cmd_G92 (oX oY oZ oE : Option ℚ) (s : GCodeState) : GCodeState :=
  let b := s.base_position
  let b := match oX with
    | none => b
    | some v => { b with x := s.last_position.x - v }
  let b := match oY with
    | none => b
    | some v => { b with y := s.last_position.y - v }
  let b := match oZ with
    | none => b
    | some v => { b with z := s.last_position.z - v }
  let b := match oE with
    | none => b
    | some v => { b with e := s.last_position.e - v * s.extrude_factor }
  if oX = none ∧ oY = none ∧ oZ = none ∧ oE = none then
    { s with base_position := s.last_position }
  else
    { s with base_position := b }

/-- cmd_M220, lines 220-224: gcmd.get_float with default 100 and above=0
(raising before any mutation when the supplied S is not positive), then
speed is rescaled to preserve the gcode speed and speed_factor replaced. -/
def cmd_M220 (S : Option ℚ) (s : GCodeState) : Except CmdError GCodeState :=
  let sv := S.getD 100
  if sv ≤ 0 then .error (.invalidParam "S")
  else
    let value := sv / (60 * 100)
    .ok { s with
      speed := get_gcode_speed s * value
      speed_factor := value }

/-- cmd_M221, lines 225-231: gcmd.get_float with default 100 and above=0,
then base_position[3] is recomputed so the apparent E position is kept
while extrude_factor is replaced. -/
def cmd_M221 (S : Option ℚ) (s : GCodeState) : Except CmdError GCodeState :=
  let sv := S.getD 100
  if sv ≤ 0 then .error (.invalidParam "S")
  else
    let new_extrude_factor := sv / 100
    let last_e_pos := s.last_position.e
    let e_value := (last_e_pos - s.base_position.e) / s.extrude_factor
    .ok { s with
      base_position :=
        { s.base_position with e := last_e_pos - e_value * new_extrude_factor }
      extrude_factor := new_extrude_factor }

/-- The parameter set read by cmd_SET_GCODE_OFFSET (lines 233-251):
per-axis explicit values, per-axis _ADJUST values, the MOVE integer flag
(get_int default 0) and the optional MOVE_SPEED. -/
structure OffsetParams where
  X : Option ℚ
  Y : Option ℚ
  Z : Option ℚ
  E : Option ℚ
  X_ADJUST : Option ℚ
  Y_ADJUST : Option ℚ
  Z_ADJUST : Option ℚ
  E_ADJUST : Option ℚ
  MOVE : Int
  MOVE_SPEED : Option ℚ
  deriving DecidableEq, Repr

/-- One iteration of the for-loop at lines 235-245: from the explicit and
_ADJUST parameters and the current homing value, the delta applied for this
axis and the new homing value (none when both parameters are absent and the
loop continues). -/
def offsetAxis (explicit adjust : Option ℚ) (homing : ℚ) : Option (ℚ × ℚ) :=
  match explicit with
  | some offset => some (offset - homing, offset)
  | none =>
      match adjust with
      | none => none
      | some adj =>
          let offset := adj + homing
          some (offset - homing, offset)

/-- Applies one loop iteration of cmd_SET_GCODE_OFFSET to one axis of the
state, given accessors for the axis component; returns the updated
base/homing values and the move_delta entry. -/
def applyOffsetAxis (explicit adjust : Option ℚ) (base homing : ℚ) :
    ℚ × ℚ × ℚ :=
  match offsetAxis explicit adjust homing with
  | none => (0, base, homing)
  | some (delta, offset) => (delta, base + delta, offset)

/-- cmd_SET_GCODE_OFFSET, lines 233-251: per axis, an explicit value sets
homing_position[pos] and an _ADJUST value (consulted only when the explicit
value is absent) adds to it; base_position[pos] absorbs the same delta.
When MOVE is nonzero the accumulated deltas are added to last_position and
a move is issued at MOVE_SPEED (default: current speed, above=0 check). -/
def cmd_SET_GCODE_OFFSET (p : OffsetParams) (s : GCodeState) :
    Except CmdError (GCodeState × Option (Pos4 × ℚ)) :=
  let ax := applyOffsetAxis p.X p.X_ADJUST
      s.base_position.x s.homing_position.x
  let ay := applyOffsetAxis p.Y p.Y_ADJUST
      s.base_position.y s.homing_position.y
  let az := applyOffsetAxis p.Z p.Z_ADJUST
      s.base_position.z s.homing_position.z
  let ae := applyOffsetAxis p.E p.E_ADJUST
      s.base_position.e s.homing_position.e
  let s1 := { s with
    base_position := ⟨ax.2.1, ay.2.1, az.2.1, ae.2.1⟩
    homing_position := ⟨ax.2.2, ay.2.2, az.2.2, ae.2.2⟩ }
  if p.MOVE ≠ 0 then
    let speed := p.MOVE_SPEED.getD s1.speed
    if speed ≤ 0 then .error (.invalidParam "MOVE_SPEED")
    else
      let lp := { x := s1.last_position.x + ax.1
                  y := s1.last_position.y + ay.1
                  z := s1.last_position.z + az.1
                  e := s1.last_position.e + ae.1 : Pos4 }
      .ok ({ s1 with last_position := lp }, some (lp, speed))
  else
    .ok (s1, none)

/-- Association-list update with dict-replacement semantics for
self.saved_states[state_name] = ... (line 255). -/
def storeState (name : String) (st : SavedState)
    (l : List (String × SavedState)) : List (String × SavedState) :=
  (name, st) :: l.filter (fun kv => kv.1 ≠ name)

/-- Association-list lookup for self.saved_states.get(state_name)
(line 267). -/
def lookupState (name : String) (l : List (String × SavedState)) :
    Option SavedState :=
  match l.find? (fun kv => kv.1 = name) with
  | none => none
  | some kv => some kv.2

/-- cmd_SAVE_GCODE_STATE, lines 253-263: snapshot every coordinate field
under NAME (default key: default). -/
def cmd_SAVE_GCODE_STATE (name : Option String) (s : GCodeState) :
    GCodeState :=
  let state_name := name.getD "default"
  let snap : SavedState :=
    { absolute_coord := s.absolute_coord
      absolute_extrude := s.absolute_extrude
      base_position := s.base_position
      last_position := s.last_position
      homing_position := s.homing_position
      speed := s.speed
      speed_factor := s.speed_factor
      extrude_factor := s.extrude_factor }
  { s with saved_states := storeState state_name snap s.saved_states }

/-- cmd_RESTORE_GCODE_STATE, lines 265-285: unknown names raise; otherwise
every field except last_position is restored verbatim, then base_position.e
absorbs the E movement since the save (e_diff); with MOVE nonzero the X/Y/Z
components of last_position are rolled back to the snapshot and a move is
issued. -/
def cmd_RESTORE_GCODE_STATE (name : Option String) (mv : Int)
    (mvSpeed : Option ℚ) (s : GCodeState) :
    Except CmdError (GCodeState × Option (Pos4 × ℚ)) :=
  let state_name := name.getD "default"
  match lookupState state_name s.saved_states with
  | none => .error (.unknownState state_name)
  | some st =>
      let s1 := { s with
        absolute_coord := st.absolute_coord
        absolute_extrude := st.absolute_extrude
        base_position := st.base_position
        homing_position := st.homing_position
        speed := st.speed
        speed_factor := st.speed_factor
        extrude_factor := st.extrude_factor }
      let e_diff := s1.last_position.e - st.last_position.e
      let s2 := { s1 with base_position :=
        { s1.base_position with e := s1.base_position.e + e_diff } }
      if mv ≠ 0 then
        let speed := mvSpeed.getD s2.speed
        if speed ≤ 0 then .error (.invalidParam "MOVE_SPEED")
        else
          let lp := { st.last_position with e := s2.last_position.e }
          .ok ({ s2 with last_position := lp }, some (lp, speed))
      else
        .ok (s2, none)

/-- The pre-ready value of self.move_with_transform (line 54): None, i.e.
no move capability is bound yet. A bound provider is a function recording
the move it receives. -/
def init_move_with_transform : Option (Pos4 → ℚ → Pos4 × ℚ) := none

/-- The pre-ready value of self.position_with_transform (line 55): a
lambda returning the all-zero position. -/
def init_position_with_transform : Unit → Pos4 := fun _ => ⟨0, 0, 0, 0⟩

/-- Calling self.move_with_transform(...): when it still holds None, the
call raises (a None object is not callable); otherwise it forwards to the
bound provider. -/
def invoke_move (f : Option (Pos4 → ℚ → Pos4 × ℚ)) (pos : Pos4) (speed : ℚ) :
    Except String (Pos4 × ℚ) :=
  match f with
  | none => .error "TypeError: NoneType object is not callable"
  | some g => .ok (g pos speed)

/-! ## Theorems -/

/-- Helper: the X/Y/Z/E steps of cmd_G1 never change base_position,
homing_position, the mode flags, speed, the factors or saved_states, and
the E step is the only one touching last_position.e. -/
theorem g1XYZ_state (c : String) (pX pY pZ : Option ParamVal) (s : GCodeState) :
    let r := stepParam (stepParam (g1X c pX s) (g1Y c pY)) (g1Z c pZ)
    r.1.base_position = s.base_position ∧
    r.1.homing_position = s.homing_position ∧
    r.1.absolute_coord = s.absolute_coord ∧
    r.1.absolute_extrude = s.absolute_extrude ∧
    r.1.speed = s.speed ∧
    r.1.speed_factor = s.speed_factor ∧
    r.1.extrude_factor = s.extrude_factor ∧
    r.1.saved_states = s.saved_states ∧
    r.1.last_position.e = s.last_position.e := by
  rcases pX with _ | (v | _) <;> rcases pY with _ | (w | _) <;>
    rcases pZ with _ | (u | _) <;>
    simp [stepParam, g1X, g1Y, g1Z]

/-- Helper: the X/Y/Z steps raise no error when none of the three
parameters is malformed. -/
theorem g1XYZ_noerr (c : String) (pX pY pZ : Option ParamVal) (s : GCodeState)
    (hX : pX ≠ some .malformed) (hY : pY ≠ some .malformed)
    (hZ : pZ ≠ some .malformed) :
    (stepParam (stepParam (g1X c pX s) (g1Y c pY)) (g1Z c pZ)).2 = none := by
  rcases pX with _ | (v | _) <;> rcases pY with _ | (w | _) <;>
    rcases pZ with _ | (u | _) <;>
    simp_all [stepParam, g1X, g1Y, g1Z]

/-- Helper: the state of a cmd_G1 result is the first component of the
five-step parameter chain. -/
theorem cmd_G1_state (c : String) (p : G1Params) (s : GCodeState) :
    (cmd_G1 c p s).state = (stepParam (stepParam (stepParam (stepParam
      (g1X c p.X s) (g1Y c p.Y)) (g1Z c p.Z)) (g1E c p.E)) (g1F c p.F)).1 := by
  rcases hr : stepParam (stepParam (stepParam (stepParam
      (g1X c p.X s) (g1Y c p.Y)) (g1Z c p.Z)) (g1E c p.E)) (g1F c p.F)
    with ⟨s1, e⟩
  rcases e with _ | e <;> simp [cmd_G1, hr]

/-- Helper: the F step never changes last_position. -/
theorem g1F_last (c : String) (pF : Option ParamVal) (s : GCodeState) :
    ((g1F c pF s).1).last_position = s.last_position := by
  rcases pF with _ | (w | _) <;> simp [g1F]
  split <;> simp

/-- C2: with the E parameter present and numeric (and X/Y/Z parseable),
last_position.e is updated relatively (+= v * extrude_factor) whenever
absolute_coord is false or absolute_extrude is false, and absolutely
(= v * extrude_factor + base_position.e) only when both flags are true. -/
theorem C2_extrude_mode_rule (c : String) (p : G1Params) (s : GCodeState)
    (v : ℚ) (hE : p.E = some (.num v))
    (hX : p.X ≠ some .malformed) (hY : p.Y ≠ some .malformed)
    (hZ : p.Z ≠ some .malformed) :
    (cmd_G1 c p s).state.last_position.e =
      if !s.absolute_coord || !s.absolute_extrude then
        s.last_position.e + v * s.extrude_factor
      else
        v * s.extrude_factor + s.base_position.e := by
  rw [cmd_G1_state]
  have h3 := g1XYZ_state c p.X p.Y p.Z s
  have hne := g1XYZ_noerr c p.X p.Y p.Z s hX hY hZ
  set r3 := stepParam (stepParam (g1X c p.X s) (g1Y c p.Y)) (g1Z c p.Z)
    with hr3
  obtain ⟨hb, hh, hac, hae, hsp, hsf, hef, hsv, hle⟩ := h3
  have hr3eq : r3 = (r3.1, none) := by
    rw [← hne]
  rw [hr3eq, hE]
  simp only [stepParam, g1E, g1F_last]
  rw [hac, hae, hle, hef, hb]

/-- Witness for C2 at the spec scenario: absolute_coord true,
absolute_extrude false, move E=5 accumulates relatively onto the E
position (0 + 5 * 1 = 5). -/
theorem C2_extrude_mode_rule_witness :
    (cmd_G1 "G1 E5"
      { X := none, Y := none, Z := none, E := some (.num 5), F := none }
      { initState with absolute_extrude := false }).state.last_position.e
      = 5 := by
  have h := C2_extrude_mode_rule "G1 E5"
    { X := none, Y := none, Z := none, E := some (.num 5), F := none }
    { initState with absolute_extrude := false } 5 rfl
    (by decide) (by decide) (by decide)
  simpa [initState] using h

/-- C1 counterexample: a G1 command with a numeric X and a malformed Y
raises the parse error carrying the command line, yet leaves the state
mutated (last_position.x was already written), contradicting the
all-or-nothing part of the claim. -/
theorem C1_counterexample :
    (cmd_G1 "G1 X5 Yq"
      { X := some (.num 5), Y := some .malformed, Z := none, E := none,
        F := none } initState).err = some (.parseError "G1 X5 Yq") ∧
    (cmd_G1 "G1 X5 Yq"
      { X := some (.num 5), Y := some .malformed, Z := none, E := none,
        F := none } initState).state ≠ initState := by
  refine ⟨rfl, fun hEq => ?_⟩
  have hx : (cmd_G1 "G1 X5 Yq"
      { X := some (.num 5), Y := some .malformed, Z := none, E := none,
        F := none } initState).state.last_position.x
      = 5 + initState.base_position.x := rfl
  rw [hEq] at hx
  norm_num [initState] at hx

/-- C1 (amended): when any present parameter of a G1 command is
non-numeric, the command raises the parse error referencing the original
command text, no move is issued, and base_position, homing_position, the
mode flags, speed and both factors are untouched — but updates of
last_position made for parameters processed before the failing one
persist (the parse is in-place, not atomic). -/
theorem C1_amended (c : String) (p : G1Params) (s : GCodeState)
    (h : p.X = some .malformed ∨ p.Y = some .malformed
      ∨ p.Z = some .malformed ∨ p.E = some .malformed
      ∨ p.F = some .malformed) :
    (cmd_G1 c p s).err = some (.parseError c) ∧
    (cmd_G1 c p s).moved = none ∧
    (cmd_G1 c p s).state.base_position = s.base_position ∧
    (cmd_G1 c p s).state.homing_position = s.homing_position ∧
    (cmd_G1 c p s).state.absolute_coord = s.absolute_coord ∧
    (cmd_G1 c p s).state.absolute_extrude = s.absolute_extrude ∧
    (cmd_G1 c p s).state.speed = s.speed ∧
    (cmd_G1 c p s).state.speed_factor = s.speed_factor ∧
    (cmd_G1 c p s).state.extrude_factor = s.extrude_factor ∧
    (cmd_G1 c p s).state.saved_states = s.saved_states := by
  rcases p with ⟨pX, pY, pZ, pE, pF⟩
  rcases pX with _ | (v | _) <;> rcases pY with _ | (w | _) <;>
    rcases pZ with _ | (u | _) <;> rcases pE with _ | (t | _) <;>
    rcases pF with _ | (q | _) <;>
    simp_all [cmd_G1, stepParam, g1X, g1Y, g1Z, g1E, g1F]

/-- Witness for C1 (amended) at the counterexample input. -/
theorem C1_amended_witness :
    (cmd_G1 "G1 X5 Yq"
      { X := some (.num 5), Y := some .malformed, Z := none, E := none,
        F := none } initState).err = some (.parseError "G1 X5 Yq") ∧
    (cmd_G1 "G1 X5 Yq"
      { X := some (.num 5), Y := some .malformed, Z := none, E := none,
        F := none } initState).moved = none := by
  have h := C1_amended "G1 X5 Yq"
    { X := some (.num 5), Y := some .malformed, Z := none, E := none,
      F := none } initState (Or.inr (Or.inl rfl))
  exact ⟨h.1, h.2.1⟩

/-- C4 counterexample: G1 with X=5 and F=0 raises the invalid-speed error,
yet the state is not left unchanged: last_position.x was already updated
before the feed parameter was examined. -/
theorem C4_counterexample :
    (cmd_G1 "G1 X5 F0"
      { X := some (.num 5), Y := none, Z := none, E := none,
        F := some (.num 0) } initState).err
      = some (.invalidSpeed "G1 X5 F0") ∧
    (cmd_G1 "G1 X5 F0"
      { X := some (.num 5), Y := none, Z := none, E := none,
        F := some (.num 0) } initState).state ≠ initState := by
  refine ⟨rfl, fun hEq => ?_⟩
  have hx : (cmd_G1 "G1 X5 F0"
      { X := some (.num 5), Y := none, Z := none, E := none,
        F := some (.num 0) } initState).state.last_position.x
      = 5 + initState.base_position.x := rfl
  rw [hEq] at hx
  norm_num [initState] at hx

/-- C4 (amended): a parseable F value at most zero makes cmd_G1 raise the
invalid-speed error referencing the command text, with no move issued and
speed, the factors, base/homing positions and flags unchanged — but
last_position updates applied for the axis parameters of the same command
persist; cmd_M220 and cmd_M221 with S at most zero fail before any
mutation, returning no new state. -/
theorem C4_amended :
    (∀ (c : String) (p : G1Params) (s : GCodeState) (w : ℚ),
      p.F = some (.num w) → w ≤ 0 →
      p.X ≠ some .malformed → p.Y ≠ some .malformed →
      p.Z ≠ some .malformed → p.E ≠ some .malformed →
      (cmd_G1 c p s).err = some (.invalidSpeed c) ∧
      (cmd_G1 c p s).moved = none ∧
      (cmd_G1 c p s).state.speed = s.speed ∧
      (cmd_G1 c p s).state.speed_factor = s.speed_factor ∧
      (cmd_G1 c p s).state.extrude_factor = s.extrude_factor ∧
      (cmd_G1 c p s).state.base_position = s.base_position ∧
      (cmd_G1 c p s).state.homing_position = s.homing_position ∧
      (cmd_G1 c p s).state.absolute_coord = s.absolute_coord ∧
      (cmd_G1 c p s).state.absolute_extrude = s.absolute_extrude) ∧
    (∀ (s : GCodeState) (S : ℚ), S ≤ 0 →
      cmd_M220 (some S) s = .error (.invalidParam "S")) ∧
    (∀ (s : GCodeState) (S : ℚ), S ≤ 0 →
      cmd_M221 (some S) s = .error (.invalidParam "S")) := by
  refine ⟨?_, ?_, ?_⟩
  · intro c p s w hF hw hX hY hZ hE
    rcases p with ⟨pX, pY, pZ, pE, pF⟩
    rcases pX with _ | (v1 | _) <;> rcases pY with _ | (v2 | _) <;>
      rcases pZ with _ | (v3 | _) <;> rcases pE with _ | (v4 | _) <;>
      simp_all [cmd_G1, stepParam, g1X, g1Y, g1Z, g1E, g1F]
  · intro s S hS
    simp [cmd_M220, hS]
  · intro s S hS
    simp [cmd_M221, hS]

/-- Witness for C4 (amended): the G1 X5 F0 case and the zero/negative
override percentages. -/
theorem C4_amended_witness :
    (cmd_G1 "G1 X5 F0"
      { X := some (.num 5), Y := none, Z := none, E := none,
        F := some (.num 0) } initState).err
      = some (.invalidSpeed "G1 X5 F0") ∧
    cmd_M220 (some 0) initState = .error (.invalidParam "S") ∧
    cmd_M221 (some (-5)) initState = .error (.invalidParam "S") := by
  have h1 := C4_amended.1 "G1 X5 F0"
    { X := some (.num 5), Y := none, Z := none, E := none,
      F := some (.num 0) } initState 0 rfl (le_refl 0)
    (by decide) (by decide) (by decide) (by decide)
  exact ⟨h1.1, C4_amended.2.1 initState 0 (le_refl 0),
    C4_amended.2.2 initState (-5) (by norm_num)⟩

/-- Helper: one offset-loop iteration changes base and homing by the same
delta, so base minus homing is invariant. -/
theorem applyOffsetAxis_base_sub_homing (explicit adjust : Option ℚ)
    (base homing : ℚ) :
    (applyOffsetAxis explicit adjust base homing).2.1
      - (applyOffsetAxis explicit adjust base homing).2.2
      = base - homing := by
  rcases explicit with _ | v <;> rcases adjust with _ | a <;>
    simp [applyOffsetAxis, offsetAxis] <;> ring

/-- C3 counterexample: from the initial state, SET_GCODE_OFFSET X=1
without MOVE yields base_position.x = homing_position.x = 1 with
last_position untouched, so the logical X position drops from 0 to -1:
it is not left equal to its value before the call. -/
theorem C3_counterexample :
    cmd_SET_GCODE_OFFSET
      { X := some 1, Y := none, Z := none, E := none, X_ADJUST := none,
        Y_ADJUST := none, Z_ADJUST := none, E_ADJUST := none, MOVE := 0,
        MOVE_SPEED := none } initState
      = .ok ({ initState with
                 base_position := ⟨1, 0, 0, 0⟩
                 homing_position := ⟨1, 0, 0, 0⟩ }, none) ∧
    get_gcode_position { initState with
                         base_position := ⟨1, 0, 0, 0⟩
                         homing_position := ⟨1, 0, 0, 0⟩ }
      ≠ get_gcode_position initState := by
  constructor
  · norm_num [cmd_SET_GCODE_OFFSET, applyOffsetAxis, offsetAxis, initState]
  · intro h
    have hx := congrArg Pos4.x h
    norm_num [get_gcode_position, initState] at hx

/-- C3 (amended): a set-offset call without the MOVE flag issues no move,
leaves last_position untouched, and keeps last_position - base_position +
homing_position invariant on every axis (base and homing absorb the same
delta); consequently logical_position itself shifts by the homing delta
rather than staying equal. -/
theorem C3_amended (p : OffsetParams) (s : GCodeState)
    (r : GCodeState × Option (Pos4 × ℚ)) (hmv : p.MOVE = 0)
    (h : cmd_SET_GCODE_OFFSET p s = .ok r) :
    r.2 = none ∧
    r.1.last_position = s.last_position ∧
    r.1.extrude_factor = s.extrude_factor ∧
    r.1.last_position.x - r.1.base_position.x + r.1.homing_position.x
      = s.last_position.x - s.base_position.x + s.homing_position.x ∧
    r.1.last_position.y - r.1.base_position.y + r.1.homing_position.y
      = s.last_position.y - s.base_position.y + s.homing_position.y ∧
    r.1.last_position.z - r.1.base_position.z + r.1.homing_position.z
      = s.last_position.z - s.base_position.z + s.homing_position.z ∧
    r.1.last_position.e - r.1.base_position.e + r.1.homing_position.e
      = s.last_position.e - s.base_position.e + s.homing_position.e := by
  rcases r with ⟨s1, mv⟩
  simp [cmd_SET_GCODE_OFFSET, hmv] at h
  obtain ⟨hs1, hmv2⟩ := h
  subst hs1
  have hx := applyOffsetAxis_base_sub_homing p.X p.X_ADJUST
    s.base_position.x s.homing_position.x
  have hy := applyOffsetAxis_base_sub_homing p.Y p.Y_ADJUST
    s.base_position.y s.homing_position.y
  have hz := applyOffsetAxis_base_sub_homing p.Z p.Z_ADJUST
    s.base_position.z s.homing_position.z
  have he := applyOffsetAxis_base_sub_homing p.E p.E_ADJUST
    s.base_position.e s.homing_position.e
  refine ⟨hmv2.symm, rfl, rfl, ?_, ?_, ?_, ?_⟩ <;> simp <;> linarith

/-- Witness for C3 (amended) at the counterexample input: SET_GCODE_OFFSET
X=1 without MOVE from the initial state. -/
theorem C3_amended_witness :
    ({ initState with
        base_position := ⟨1, 0, 0, 0⟩
        homing_position := ⟨1, 0, 0, 0⟩ } : GCodeState).last_position
      = initState.last_position ∧
    ({ initState with
        base_position := ⟨1, 0, 0, 0⟩
        homing_position := ⟨1, 0, 0, 0⟩ } : GCodeState).last_position.x
      - ({ initState with
            base_position := ⟨1, 0, 0, 0⟩
            homing_position := ⟨1, 0, 0, 0⟩ } : GCodeState).base_position.x
      + ({ initState with
            base_position := ⟨1, 0, 0, 0⟩
            homing_position := ⟨1, 0, 0, 0⟩ } : GCodeState).homing_position.x
      = initState.last_position.x - initState.base_position.x
        + initState.homing_position.x := by
  have h := C3_amended
    { X := some 1, Y := none, Z := none, E := none, X_ADJUST := none,
      Y_ADJUST := none, Z_ADJUST := none, E_ADJUST := none, MOVE := 0,
      MOVE_SPEED := none } initState
    ({ initState with
        base_position := ⟨1, 0, 0, 0⟩
        homing_position := ⟨1, 0, 0, 0⟩ }, none) rfl
    (by norm_num [cmd_SET_GCODE_OFFSET, applyOffsetAxis, offsetAxis,
      initState])
  exact ⟨h.2.1, h.2.2.2.1⟩

/-- C10: when both an explicit axis value and the matching _ADJUST
parameter are supplied, the explicit value alone determines the result:
dropping the _ADJUST parameter gives the identical outcome, on each of the
four axes. -/
theorem C10_explicit_value_wins (s : GCodeState) (v a : ℚ)
    (o1 o2 o3 : Option ℚ) (a1 a2 a3 : Option ℚ) (mv : Int)
    (ms : Option ℚ) :
    (cmd_SET_GCODE_OFFSET
        { X := some v, Y := o1, Z := o2, E := o3, X_ADJUST := some a,
          Y_ADJUST := a1, Z_ADJUST := a2, E_ADJUST := a3,
          MOVE := mv, MOVE_SPEED := ms } s
      = cmd_SET_GCODE_OFFSET
        { X := some v, Y := o1, Z := o2, E := o3, X_ADJUST := none,
          Y_ADJUST := a1, Z_ADJUST := a2, E_ADJUST := a3,
          MOVE := mv, MOVE_SPEED := ms } s) ∧
    (cmd_SET_GCODE_OFFSET
        { X := o1, Y := some v, Z := o2, E := o3, X_ADJUST := a1,
          Y_ADJUST := some a, Z_ADJUST := a2, E_ADJUST := a3,
          MOVE := mv, MOVE_SPEED := ms } s
      = cmd_SET_GCODE_OFFSET
        { X := o1, Y := some v, Z := o2, E := o3, X_ADJUST := a1,
          Y_ADJUST := none, Z_ADJUST := a2, E_ADJUST := a3,
          MOVE := mv, MOVE_SPEED := ms } s) ∧
    (cmd_SET_GCODE_OFFSET
        { X := o1, Y := o2, Z := some v, E := o3, X_ADJUST := a1,
          Y_ADJUST := a2, Z_ADJUST := some a, E_ADJUST := a3,
          MOVE := mv, MOVE_SPEED := ms } s
      = cmd_SET_GCODE_OFFSET
        { X := o1, Y := o2, Z := some v, E := o3, X_ADJUST := a1,
          Y_ADJUST := a2, Z_ADJUST := none, E_ADJUST := a3,
          MOVE := mv, MOVE_SPEED := ms } s) ∧
    (cmd_SET_GCODE_OFFSET
        { X := o1, Y := o2, Z := o3, E := some v, X_ADJUST := a1,
          Y_ADJUST := a2, Z_ADJUST := a3, E_ADJUST := some a,
          MOVE := mv, MOVE_SPEED := ms } s
      = cmd_SET_GCODE_OFFSET
        { X := o1, Y := o2, Z := o3, E := some v, X_ADJUST := a1,
          Y_ADJUST := a2, Z_ADJUST := a3, E_ADJUST := none,
          MOVE := mv, MOVE_SPEED := ms } s) :=
  ⟨rfl, rfl, rfl, rfl⟩

/-- Helper: looking up a name right after storing it returns the stored
snapshot. -/
theorem lookupState_storeState (name : String) (st : SavedState)
    (l : List (String × SavedState)) :
    lookupState name (storeState name st l) = some st := by
  simp [lookupState, storeState, List.find?]

/-- C5: restoring an existing snapshot without MOVE does not overwrite
last_position; every other coordinate field is restored verbatim and
base_position.e additionally absorbs e_diff = current last_position.e -
snapshot last_position.e; save immediately followed by restore leaves the
gcode position unchanged. -/
theorem C5_restore_extrusion_continuity :
    (∀ (s : GCodeState) (name : String) (st : SavedState),
      lookupState name s.saved_states = some st →
      cmd_RESTORE_GCODE_STATE (some name) 0 none s = .ok
        ({ s with
            absolute_coord := st.absolute_coord
            absolute_extrude := st.absolute_extrude
            base_position := { st.base_position with
              e := st.base_position.e
                + (s.last_position.e - st.last_position.e) }
            homing_position := st.homing_position
            speed := st.speed
            speed_factor := st.speed_factor
            extrude_factor := st.extrude_factor }, none)) ∧
    (∀ (s : GCodeState) (name : String),
      ∃ s2, cmd_RESTORE_GCODE_STATE (some name) 0 none
          (cmd_SAVE_GCODE_STATE (some name) s) = .ok (s2, none) ∧
        s2.last_position = s.last_position ∧
        get_gcode_position s2 = get_gcode_position s) := by
  have h1 : ∀ (s : GCodeState) (name : String) (st : SavedState),
      lookupState name s.saved_states = some st →
      cmd_RESTORE_GCODE_STATE (some name) 0 none s = .ok
        ({ s with
            absolute_coord := st.absolute_coord
            absolute_extrude := st.absolute_extrude
            base_position := { st.base_position with
              e := st.base_position.e
                + (s.last_position.e - st.last_position.e) }
            homing_position := st.homing_position
            speed := st.speed
            speed_factor := st.speed_factor
            extrude_factor := st.extrude_factor }, none) := by
    intro s name st h
    simp [cmd_RESTORE_GCODE_STATE, h]
  refine ⟨h1, ?_⟩
  intro s name
  have hl : lookupState name
      (cmd_SAVE_GCODE_STATE (some name) s).saved_states
      = some ⟨s.absolute_coord, s.absolute_extrude, s.base_position,
          s.last_position, s.homing_position, s.speed, s.speed_factor,
          s.extrude_factor⟩ :=
    lookupState_storeState name _ s.saved_states
  have h2 := h1 (cmd_SAVE_GCODE_STATE (some name) s) name _ hl
  refine ⟨_, h2, rfl, ?_⟩
  simp [cmd_SAVE_GCODE_STATE, get_gcode_position]

/-- Witness for C5: restoring snapshot "a" (saved at E position 2) from a
state whose E position has since advanced to 7 adds the difference 5 to
the restored base_position.e and leaves last_position.e at 7. -/
theorem C5_restore_extrusion_continuity_witness :
    ∃ r, cmd_RESTORE_GCODE_STATE (some "a") 0 none
        { initState with
            last_position := ⟨0, 0, 0, 7⟩
            saved_states := [("a", ⟨true, true, ⟨0, 0, 0, 0⟩,
              ⟨0, 0, 0, 2⟩, ⟨0, 0, 0, 0⟩, 25, 1 / 60, 1⟩)] }
        = .ok (r, none) ∧
      r.base_position.e = 5 ∧ r.last_position.e = 7 := by
  have h := C5_restore_extrusion_continuity.1
    { initState with
        last_position := ⟨0, 0, 0, 7⟩
        saved_states := [("a", ⟨true, true, ⟨0, 0, 0, 0⟩,
          ⟨0, 0, 0, 2⟩, ⟨0, 0, 0, 0⟩, 25, 1 / 60, 1⟩)] }
    "a" ⟨true, true, ⟨0, 0, 0, 0⟩, ⟨0, 0, 0, 2⟩, ⟨0, 0, 0, 0⟩,
      25, 1 / 60, 1⟩ rfl
  refine ⟨_, h, ?_, rfl⟩
  norm_num

/-- C6: with a positive extrude factor and positive S, cmd_M221 sets
extrude_factor to S/100 and recomputes base_position.e so that the logical
E position is identical before and after the call. -/
theorem C6_extrude_override_continuity (s : GCodeState) (S : ℚ)
    (hf : 0 < s.extrude_factor) (hS : 0 < S) :
    ∃ s2, cmd_M221 (some S) s = .ok s2 ∧
      s2.extrude_factor = S / 100 ∧
      s2.base_position.e = s.last_position.e -
        (s.last_position.e - s.base_position.e) / s.extrude_factor
          * (S / 100) ∧
      s2.last_position = s.last_position ∧
      (get_gcode_position s2).e = (get_gcode_position s).e := by
  refine ⟨{ s with
      base_position := { s.base_position with
        e := s.last_position.e -
          (s.last_position.e - s.base_position.e) / s.extrude_factor
            * (S / 100) }
      extrude_factor := S / 100 }, ?_, rfl, rfl, rfl, ?_⟩
  · simp [cmd_M221, hS.not_le]
  · have h100 : (S : ℚ) / 100 ≠ 0 := by positivity
    have hf0 : s.extrude_factor ≠ 0 := ne_of_gt hf
    simp only [get_gcode_position]
    field_simp
    ring

/-- Witness for C6: from a state with E position 2, M221 S=50 halves the
extrude factor while the logical E position is preserved. -/
theorem C6_extrude_override_continuity_witness :
    ∃ s2, cmd_M221 (some 50)
        { initState with last_position := ⟨0, 0, 0, 2⟩ } = .ok s2 ∧
      s2.extrude_factor = 50 / 100 ∧
      (get_gcode_position s2).e
        = (get_gcode_position
            { initState with last_position := ⟨0, 0, 0, 2⟩ }).e := by
  obtain ⟨s2, h1, h2, h3, h4, h5⟩ := C6_extrude_override_continuity
    { initState with last_position := ⟨0, 0, 0, 2⟩ } 50
    (by norm_num [initState]) (by norm_num)
  exact ⟨s2, h1, h2, h5⟩

/-- C7 counterexample: before any provider is bound, move_with_transform
holds None, so invoking a move raises an error — it is not a silent
no-op. -/
theorem C7_counterexample :
    invoke_move init_move_with_transform ⟨0, 0, 0, 0⟩ 25
      = .error "TypeError: NoneType object is not callable" := rfl

/-- C7 (amended): in the initial state before the ready event,
query_position returns the all-zero Position4, but move_with_transform is
unbound (None): invoking a move fails with an error rather than silently
performing nothing. -/
theorem C7_amended :
    init_position_with_transform () = ⟨0, 0, 0, 0⟩ ∧
    init_move_with_transform = none ∧
    ∀ (pos : Pos4) (speed : ℚ),
      invoke_move init_move_with_transform pos speed
        = .error "TypeError: NoneType object is not callable" :=
  ⟨rfl, rfl, fun _ _ => rfl⟩

/-- C8: cmd_G92 sets base_position[axis] = last_position[axis] - value
for each explicitly given axis (the E value scaled by extrude_factor), and
with no axis value at all it copies last_position into base_position
wholesale, making the gcode position the zero vector. -/
theorem C8_set_origin (s : GCodeState) (oX oY oZ oE : Option ℚ) :
    (∀ v, oX = some v →
      (cmd_G92 oX oY oZ oE s).base_position.x = s.last_position.x - v) ∧
    (∀ v, oY = some v →
      (cmd_G92 oX oY oZ oE s).base_position.y = s.last_position.y - v) ∧
    (∀ v, oZ = some v →
      (cmd_G92 oX oY oZ oE s).base_position.z = s.last_position.z - v) ∧
    (∀ v, oE = some v →
      (cmd_G92 oX oY oZ oE s).base_position.e
        = s.last_position.e - v * s.extrude_factor) ∧
    (oX = none → oY = none → oZ = none → oE = none →
      (cmd_G92 oX oY oZ oE s).base_position = s.last_position ∧
      get_gcode_position (cmd_G92 oX oY oZ oE s) = ⟨0, 0, 0, 0⟩) := by
  rcases oX with _ | vx <;> rcases oY with _ | vy <;>
    rcases oZ with _ | vz <;> rcases oE with _ | ve <;>
    simp [cmd_G92, get_gcode_position]

/-- Witness for C8 at the spec scenario: after a move to (10,5,0,0),
set-origin with no arguments makes base equal last and the gcode position
the zero vector; an explicit X=3 sets base.x = last.x - 3. -/
theorem C8_set_origin_witness :
    (cmd_G92 none none none none
      { initState with last_position := ⟨10, 5, 0, 0⟩ }).base_position
      = ({ initState with
            last_position := ⟨10, 5, 0, 0⟩ } : GCodeState).last_position ∧
    get_gcode_position (cmd_G92 none none none none
      { initState with last_position := ⟨10, 5, 0, 0⟩ }) = ⟨0, 0, 0, 0⟩ ∧
    (cmd_G92 (some 3) none none none initState).base_position.x
      = initState.last_position.x - 3 := by
  have h := C8_set_origin
    { initState with last_position := ⟨10, 5, 0, 0⟩ } none none none none
  have h2 := C8_set_origin initState (some 3) none none none
  obtain ⟨hb, hg⟩ := h.2.2.2.2 rfl rfl rfl rfl
  exact ⟨hb, hg, h2.1 3 rfl⟩

/-- C9: with a positive speed factor and positive S, cmd_M220 sets
speed_factor to S/(60*100) and rescales speed so that the gcode speed is
unchanged by the override. -/
theorem C9_feed_override (s : GCodeState) (S : ℚ)
    (hsf : 0 < s.speed_factor) (hS : 0 < S) :
    ∃ s2, cmd_M220 (some S) s = .ok s2 ∧
      s2.speed_factor = S / (60 * 100) ∧
      get_gcode_speed s2 = get_gcode_speed s := by
  refine ⟨{ s with
      speed := get_gcode_speed s * (S / (60 * 100))
      speed_factor := S / (60 * 100) }, ?_, rfl, ?_⟩
  · simp [cmd_M220, hS.not_le, get_gcode_speed]
  · have h1 : S / (60 * 100) ≠ 0 := by positivity
    simp only [get_gcode_speed]
    field_simp
    ring

/-- Witness for C9 at the spec scenario: M220 S=50 from the initial state
sets speed_factor to 50/6000 while the gcode speed is preserved. -/
theorem C9_feed_override_witness :
    ∃ s2, cmd_M220 (some 50) initState = .ok s2 ∧
      s2.speed_factor = 50 / (60 * 100) ∧
      get_gcode_speed s2 = get_gcode_speed initState := by
  exact C9_feed_override initState 50 (by norm_num [initState])
    (by norm_num)

end GCodeMove
